import Mathlib

/-!
Shallow embedding of `src/gui/GroundControlPointsView.cxx` (TeleSculptor).

The widget mirrors a "ground control point" collection owned by an external
helper into a list view plus three numeric editors (easting, northing,
elevation), supports copying the current point's location to the clipboard,
and reacts to external change notifications.  The embedding models the
widget-visible state (current point id, editor values and enablement flags,
clipboard, logged warnings, notifications sent to the list model and to the
helper) and the handler functions of the C++ file as pure state
transformers.  Coordinate values are modelled as rationals; the geodesy
conversion `geo_point::location(lat_lon_WGS84)` — which may throw — is
modelled as an `Option`-valued field of the geo point; the null-helper
dereference in `copyLocation` (undefined behaviour in C++) is modelled by
`copyLocation` returning `none`.
-/

namespace GCPView

/-- Sentinel id, `std::numeric_limits<id_t>::max()` for the unsigned
ground-control-point id type (line 64 of the source); the development only
relies on it being a fixed distinguished value. -/
def INVALID_POINT : Nat := 2 ^ 32 - 1

/-- EPSG code `kwiver::vital::SRID::lat_lon_WGS84` used to tag
geodetic locations written back by the widget. -/
def lat_lon_WGS84 : Int := 4326

/-- Shallow model of a `kwiver::vital::geo_point` as observed by this
widget: whether it is empty (`is_empty()`), its coordinate reference
system (`crs()`), and the result of `location(SRID::lat_lon_WGS84)` —
`some (x, y, z)` when the conversion succeeds and `none` when the geodesy
library throws. -/
structure GeoPoint where
  isEmpty : Bool
  crs : Int
  locWGS84 : Option (ℚ × ℚ × ℚ)
deriving DecidableEq

/-- Model of the `geo_point` built by `setPointPosition` at line 227:
`{vector_2d{easting, northing}, SRID::lat_lon_WGS84}`.  It is non-empty,
tagged with the WGS84 lat/lon frame, and its WGS84 location is the stored
pair itself (no conversion can fail; the unused third component is 0). -/
def GeoPoint.ofVector2dWGS84 (x y : ℚ) : GeoPoint :=
  { isEmpty := false, crs := lat_lon_WGS84, locWGS84 := some (x, y, 0) }

/-- Shallow model of a `kwiver::vital::ground_control_point`: its
geodetic location, its elevation, and the user-provided flag. -/
structure GroundControlPoint where
  geoLoc : GeoPoint
  elevation : ℚ
  geoLocUserProvided : Bool
deriving DecidableEq

/-- Modelled from the spec: the external `GroundControlPointsHelper`
(repository code not present under `src/`), reduced to what the widget
reads of it — `groundControlPoint(id)` as a partial id-to-point map and
the currently active point id set via `setActivePoint`. -/
structure Helper where
  points : Nat → Option GroundControlPoint
  activePoint : Nat

/-- Enablement flags and values of the widget's editors and actions:
the three spin boxes, the delete/revert actions, the four copy-location
actions, and the copy-location tool button. -/
structure UIState where
  easting : ℚ
  northing : ℚ
  elevation : ℚ
  eastingEnabled : Bool
  northingEnabled : Bool
  elevationEnabled : Bool
  actionDeleteEnabled : Bool
  actionRevertEnabled : Bool
  actionCopyLatLonEnabled : Bool
  actionCopyLatLonElevEnabled : Bool
  actionCopyLonLatEnabled : Bool
  actionCopyLonLatElevEnabled : Bool
  copyLocationButtonEnabled : Bool
deriving DecidableEq

/-- Calls the widget delegates to the external helper; recorded as a
trace since their effect lives outside this file. -/
inductive HelperCall where
  | setActive (id : Nat)
  | remove (id : Nat)
  | reset (id : Nat)
deriving DecidableEq

/-- Whole observable state of the widget: the helper pointer (`none`
models a null `helper`), the current point id, the UI, the system
clipboard, the list-view selection, the warnings logged via `qWarning`
(recorded by the CRS whose conversion failed), the ids passed to
`model.modifyPoint`, and the calls delegated to the helper. -/
structure ViewState where
  helper : Option Helper
  currentPoint : Nat
  ui : UIState
  clipboard : Option String
  listSelection : Option Nat
  warnings : List Int
  modelNotes : List Nat
  helperCalls : List HelperCall

/-- `GroundControlPointsViewPrivate::enableControls` (lines 149-164):
the three editors, delete and revert follow `state`; the four
copy-location actions follow `state && haveLocation`; the copy-location
tool button follows `state` alone. -/
def enableControls (state haveLocation : Bool) (ui : UIState) : UIState :=
  { ui with
    eastingEnabled := state
    northingEnabled := state
    elevationEnabled := state
    actionDeleteEnabled := state
    actionRevertEnabled := state
    actionCopyLatLonEnabled := state && haveLocation
    actionCopyLatLonElevEnabled := state && haveLocation
    actionCopyLonLatEnabled := state && haveLocation
    actionCopyLonLatElevEnabled := state && haveLocation
    copyLocationButtonEnabled := state }

/-- The fall-through tail of `showPoint` (lines 211-212):
`currentPoint = INVALID_POINT; enableControls(false)` — the second
(defaulted) argument of `enableControls` is `true`. -/
def clearPointState (s : ViewState) : ViewState :=
  { s with currentPoint := INVALID_POINT, ui := enableControls false true s.ui }

/-- Result of the conversion lambda in `showPoint`/`copyLocation`: the
vector used and whether the catch-all handler logged a warning.  A
successful `location(lat_lon_WGS84)` yields the converted vector; a
thrown exception is caught, a warning is logged, and the zero vector is
substituted. -/
def convertWGS84 (gl : GeoPoint) : (ℚ × ℚ × ℚ) × Bool :=
  match gl.locWGS84 with
  | some v => (v, false)
  | none => ((0, 0, 0), true)

/-- The conversion lambda of `showPoint` (lines 177-190): an empty
location short-circuits to the zero vector without attempting a
conversion; otherwise `convertWGS84`. -/
def displayVec (gcp : GroundControlPoint) : (ℚ × ℚ × ℚ) × Bool :=
  if gcp.geoLoc.isEmpty then (((0 : ℚ), (0 : ℚ), (0 : ℚ)), false)
  else convertWGS84 gcp.geoLoc

/-- `GroundControlPointsViewPrivate::showPoint` (lines 167-214): with a
helper and a non-sentinel id whose point is found, record the id as
current, convert the location (empty location or a failed conversion
gives the zero vector, failure also logs a warning), put x into the
easting editor, y into the northing editor and the point's elevation
into the elevation editor (signals blocked), and enable controls with
`haveLocation = !is_empty`; otherwise clear the current point and
disable everything. -/
def showPoint (id : Nat) (s : ViewState) : ViewState :=
  match s.helper with
  | some h =>
    if id ≠ INVALID_POINT then
      match h.points id with
      | some gcp =>
        let conv := displayVec gcp
        let grl := conv.1
        let ui1 := { s.ui with
          easting := grl.1, northing := grl.2.1, elevation := gcp.elevation }
        { s with
          currentPoint := id
          ui := enableControls true (!gcp.geoLoc.isEmpty) ui1
          warnings := if conv.2 then s.warnings ++ [gcp.geoLoc.crs] else s.warnings }
      | none => clearPointState s
    else clearPointState s
  | none => clearPointState s

/-- `GroundControlPointsViewPrivate::setPointPosition` (lines 217-234):
with a helper and a non-sentinel id whose point is found, set the
point's location to the (easting, northing) editor pair tagged
`SRID::lat_lon_WGS84` together with the elevation editor value, set the
user-provided flag, and notify the model via `modifyPoint(id)`; the
point is shared, so the helper's map observes the update. -/
def setPointPosition (id : Nat) (s : ViewState) : ViewState :=
  match s.helper with
  | some h =>
    if id ≠ INVALID_POINT then
      match h.points id with
      | some gcp =>
        let gcp' := { gcp with
          geoLoc := GeoPoint.ofVector2dWGS84 s.ui.easting s.ui.northing
          elevation := s.ui.elevation
          geoLocUserProvided := true }
        { s with
          helper := some { h with
            points := fun j => if j = id then some gcp' else h.points j }
          modelNotes := s.modelNotes ++ [id] }
      | none => s
    else s
  | none => s

/-- Model of `QString::number(x, 'f', prec)`: fixed-point decimal
notation with exactly `prec` digits after the point, rounding half up
at the last kept digit.  The scaled value `⌊x * 10 ^ prec + 1 / 2⌋` is
computed directly on the numerator and denominator by Euclidean
division so that it evaluates inside the kernel. -/
def formatFixed (x : ℚ) (prec : Nat) : String :=
  let scaled : Int :=
    Int.ediv (2 * x.num * ((10 ^ prec : Nat) : Int) + (x.den : Int))
      (2 * (x.den : Int))
  let n := scaled.natAbs
  let ip := n / 10 ^ prec
  let fp := n % 10 ^ prec
  let sign := if scaled < 0 then "-" else ""
  let fracDigits := Nat.toDigits 10 fp
  let padded :=
    String.mk (List.replicate (prec - fracDigits.length) '0' ++ fracDigits)
  if prec = 0 then sign ++ toString ip
  else sign ++ toString ip ++ "." ++ padded

/-- Model of `QStringList::join(',')`: concatenation with a single
comma between consecutive entries and nothing else. -/
def joinComma : List String → String
  | [] => ""
  | [v] => v
  | v :: w :: vs => v ++ "," ++ joinComma (w :: vs)

/-- `GroundControlPointsViewPrivate::copyLocation` (lines 246-286).
The C++ dereferences `this->helper` unconditionally, so a null helper
is undefined behaviour — modelled by returning `none`.  Otherwise: look
up the current point; if found and its location is non-empty, convert
it (a failed conversion logs a warning and substitutes the zero
vector), format y then x when `northingFirst` and x then y otherwise,
each with 9 decimals, append the point's elevation with 3 decimals when
`includeElevation`, and place the comma-joined result on the clipboard;
if the point is missing or its location empty, nothing happens. -/
def copyLocation (northingFirst includeElevation : Bool) (s : ViewState) :
    Option ViewState :=
  match s.helper with
  | none => none
  | some h =>
    some <|
      match h.points s.currentPoint with
      | some gcp =>
        if gcp.geoLoc.isEmpty then s
        else
          let conv := convertWGS84 gcp.geoLoc
          let grl := conv.1
          let values :=
            (if northingFirst then
              [formatFixed grl.2.1 9, formatFixed grl.1 9]
            else
              [formatFixed grl.1 9, formatFixed grl.2.1 9])
            ++ (if includeElevation then [formatFixed gcp.elevation 3] else [])
          { s with
            clipboard := some (joinComma values)
            warnings :=
              if conv.2 then s.warnings ++ [gcp.geoLoc.crs] else s.warnings }
      | none => s

/-- The `actionDelete` slot (lines 354-360): only with a helper and a
non-sentinel current point does it delegate `removePoint` to the
helper. -/
def onDeleteTriggered (s : ViewState) : ViewState :=
  match s.helper with
  | some _ =>
    if s.currentPoint ≠ INVALID_POINT then
      { s with helperCalls := s.helperCalls ++ [HelperCall.remove s.currentPoint] }
    else s
  | none => s

/-- The `actionRevert` slot (lines 362-369): only with a helper and a
non-sentinel current point does it delegate `resetPoint` to the helper
and notify the model via `modifyPoint`. -/
def onRevertTriggered (s : ViewState) : ViewState :=
  match s.helper with
  | some _ =>
    if s.currentPoint ≠ INVALID_POINT then
      { s with
        helperCalls := s.helperCalls ++ [HelperCall.reset s.currentPoint]
        modelNotes := s.modelNotes ++ [s.currentPoint] }
    else s
  | none => s

/-- The spin-box `valueChanged` slot (lines 380-384): all three editors
connect to the same lambda, `setPointPosition(currentPoint)`. -/
def onFieldValueEdited (s : ViewState) : ViewState :=
  setPointPosition s.currentPoint s

/-- The `pointChanged` connection installed by `setHelper`
(lines 407-413): refresh the display only when the notified id is the
current point. -/
def onPointChanged (id : Nat) (s : ViewState) : ViewState :=
  if s.currentPoint = id then showPoint id s else s

/-- `GroundControlPointsViewPrivate::selectedPoint` (lines 237-243):
the id at the list's current index, or the sentinel when the index is
invalid. -/
def selectedPointOf (s : ViewState) : Nat :=
  s.listSelection.getD INVALID_POINT

/-- The `activePointChanged` connection installed by `setHelper`
(lines 422-435), including the feedback cascade the spec describes: a
notification whose id already matches the current point is skipped;
otherwise the point is shown and the list selection updated.  Modelled
from the spec: the selection change triggers the `currentChanged` slot
of the constructor (lines 302-313) — `showPoint(selectedPoint())` then
`helper->setActivePoint(id)` — and the helper's `setActivePoint`
(repository code not under `src/`) re-emits `activePointChanged` with
that id, which re-enters this handler.  The re-entry is bounded by an
explicit fuel so the model is total; the theorems show one unit of
feedback fuel already yields the fixed point. -/
def handleActivePointChanged : Nat → Nat → ViewState → ViewState
  | 0, _, s => s
  | fuel + 1, id, s =>
    if s.currentPoint = id then s
    else
      let s1 := showPoint id s
      let s2 := { s1 with listSelection := some id }
      let id2 := selectedPointOf s2
      let s3 := showPoint id2 s2
      match s3.helper with
      | some hh =>
        handleActivePointChanged fuel id2
          { s3 with
            helper := some { hh with activePoint := id2 }
            helperCalls := s3.helperCalls ++ [HelperCall.setActive id2] }
      | none => s3

/-! Concrete states used by the witnesses. -/

/-- A geo point stored in UTM zone 33N whose WGS84 conversion succeeds. -/
def sampleGeoPoint : GeoPoint :=
  { isEmpty := false, crs := 32633, locWGS84 := some (15, 59, 0) }

/-- A ground control point at `sampleGeoPoint` with elevation 100. -/
def sampleGCP : GroundControlPoint :=
  { geoLoc := sampleGeoPoint, elevation := 100, geoLocUserProvided := false }

/-- Editors all at zero and everything disabled, as after construction. -/
def sampleUI : UIState :=
  { easting := 0, northing := 0, elevation := 0,
    eastingEnabled := false, northingEnabled := false, elevationEnabled := false,
    actionDeleteEnabled := false, actionRevertEnabled := false,
    actionCopyLatLonEnabled := false, actionCopyLatLonElevEnabled := false,
    actionCopyLonLatEnabled := false, actionCopyLonLatElevEnabled := false,
    copyLocationButtonEnabled := false }

/-- A geo point left empty, as in a freshly added ground control point. -/
def emptyLocGeoPoint : GeoPoint :=
  { isEmpty := true, crs := -1, locWGS84 := none }

/-- A ground control point with no location and elevation 7. -/
def emptyLocGCP : GroundControlPoint :=
  { geoLoc := emptyLocGeoPoint, elevation := 7, geoLocUserProvided := false }

/-- A geo point stored in a frame whose WGS84 conversion throws. -/
def failGeoPoint : GeoPoint :=
  { isEmpty := false, crs := 26718, locWGS84 := none }

/-- A ground control point whose location conversion fails, elevation 42. -/
def failGCP : GroundControlPoint :=
  { geoLoc := failGeoPoint, elevation := 42, geoLocUserProvided := false }

/-- A helper holding the good point (id 3), the empty-location point
(id 5) and the conversion-failure point (id 6). -/
def sampleHelper : Helper :=
  { points := fun j =>
      if j = 3 then some sampleGCP
      else if j = 5 then some emptyLocGCP
      else if j = 6 then some failGCP
      else none
    activePoint := 3 }

/-- A widget state whose current point is the id-3 point of `sampleHelper`. -/
def sampleState : ViewState :=
  { helper := some sampleHelper, currentPoint := 3, ui := sampleUI,
    clipboard := none, listSelection := some 3, warnings := [],
    modelNotes := [], helperCalls := [] }

/-- C1: for a current point whose stored location is non-empty and converts
to WGS84 with x = longitude, y = latitude, `copyLocation` puts on the
clipboard "lat,lon" when `northingFirst` (appending ",elev" when
`includeElevation`) and "lon,lat" (optionally ",elev") otherwise, each
coordinate formatted fixed-point with 9 decimals, the elevation with 3,
joined by commas with no spaces. -/
theorem copyLocation_formats (s : ViewState) (h : Helper)
    (gcp : GroundControlPoint) (lon lat z : ℚ)
    (hh : s.helper = some h)
    (hp : h.points s.currentPoint = some gcp)
    (hne : gcp.geoLoc.isEmpty = false)
    (hloc : gcp.geoLoc.locWGS84 = some (lon, lat, z)) :
    copyLocation true false s
      = some { s with clipboard := some (formatFixed lat 9 ++ "," ++ formatFixed lon 9) }
    ∧ copyLocation true true s
      = some { s with clipboard := some (formatFixed lat 9 ++ "," ++ formatFixed lon 9 ++ "," ++ formatFixed gcp.elevation 3) }
    ∧ copyLocation false false s
      = some { s with clipboard := some (formatFixed lon 9 ++ "," ++ formatFixed lat 9) }
    ∧ copyLocation false true s
      = some { s with clipboard := some (formatFixed lon 9 ++ "," ++ formatFixed lat 9 ++ "," ++ formatFixed gcp.elevation 3) } := by
  refine ⟨?_, ?_, ?_, ?_⟩ <;>
    simp [copyLocation, hh, hp, hne, hloc, convertWGS84, joinComma,
      String.append_assoc]

/-- Closed form of `showPoint` when the helper is set, the id is not the
sentinel, and the point is found. -/
theorem showPoint_found_eq (s : ViewState) (h : Helper)
    (gcp : GroundControlPoint) (id : Nat)
    (hh : s.helper = some h) (hid : id ≠ INVALID_POINT)
    (hp : h.points id = some gcp) :
    showPoint id s
      = { s with
          currentPoint := id
          ui := enableControls true (!gcp.geoLoc.isEmpty) { s.ui with easting := (displayVec gcp).1.1, northing := (displayVec gcp).1.2.1, elevation := gcp.elevation }
          warnings := if (displayVec gcp).2 then s.warnings ++ [gcp.geoLoc.crs] else s.warnings } := by
  simp [showPoint, hh, hid, hp]

/-- Witness for C1 at `sampleState`: the hypotheses hold for the id-3
point and the four clipboard strings evaluate as stated. -/
theorem copyLocation_formats_witness :
    sampleState.helper = some sampleHelper
    ∧ sampleHelper.points sampleState.currentPoint = some sampleGCP
    ∧ sampleGCP.geoLoc.isEmpty = false
    ∧ sampleGCP.geoLoc.locWGS84 = some (15, 59, 0)
    ∧ copyLocation true true sampleState
      = some { sampleState with clipboard := some "59.000000000,15.000000000,100.000" } := by
  refine ⟨rfl, rfl, rfl, rfl, ?_⟩
  have h := (copyLocation_formats sampleState sampleHelper sampleGCP
    15 59 0 rfl rfl rfl rfl).2.1
  rw [h]
  rfl

/-- C7: with a helper set, `copyLocation` is a no-op — the whole state,
in particular the clipboard, is unchanged — whenever the current point
is not found in the helper or its stored location is empty, for every
combination of the two flags. -/
theorem copyLocation_noop (s : ViewState) (h : Helper)
    (hh : s.helper = some h) :
    (h.points s.currentPoint = none →
      ∀ nf ie, copyLocation nf ie s = some s)
    ∧ (∀ gcp, h.points s.currentPoint = some gcp →
        gcp.geoLoc.isEmpty = true →
        ∀ nf ie, copyLocation nf ie s = some s) := by
  constructor
  · intro hp nf ie
    simp [copyLocation, hh, hp]
  · intro gcp hp he nf ie
    simp [copyLocation, hh, hp, he]

/-- Witness for C7: a missing current point (id 4) and an
empty-location current point (id 5) both leave the state untouched. -/
theorem copyLocation_noop_witness :
    ({ sampleState with currentPoint := 4 } : ViewState).helper = some sampleHelper
    ∧ sampleHelper.points 4 = none
    ∧ copyLocation true false { sampleState with currentPoint := 4 }
      = some { sampleState with currentPoint := 4 }
    ∧ sampleHelper.points 5 = some emptyLocGCP
    ∧ emptyLocGCP.geoLoc.isEmpty = true
    ∧ copyLocation false true { sampleState with currentPoint := 5 }
      = some { sampleState with currentPoint := 5 } := by
  refine ⟨rfl, rfl, ?_, rfl, rfl, ?_⟩
  · exact (copyLocation_noop { sampleState with currentPoint := 4 }
      sampleHelper rfl).1 rfl true false
  · exact (copyLocation_noop { sampleState with currentPoint := 5 }
      sampleHelper rfl).2 emptyLocGCP rfl rfl false true

/-- C2: a failed WGS84 conversion never escapes `showPoint` or
`copyLocation`: `showPoint` logs a warning and displays easting 0 and
northing 0 while the elevation editor still shows the point's stored
elevation, and `copyLocation` logs a warning and copies the same
zero-substituted location. -/
theorem conversion_failure_recovered (s : ViewState) (h : Helper)
    (gcp : GroundControlPoint)
    (hh : s.helper = some h)
    (hid : s.currentPoint ≠ INVALID_POINT)
    (hp : h.points s.currentPoint = some gcp)
    (hne : gcp.geoLoc.isEmpty = false)
    (hfail : gcp.geoLoc.locWGS84 = none) :
    showPoint s.currentPoint s
      = { s with ui := enableControls true true { s.ui with easting := 0, northing := 0, elevation := gcp.elevation }, warnings := s.warnings ++ [gcp.geoLoc.crs] }
    ∧ (∀ nf ie, copyLocation nf ie s
        = some { s with clipboard := some (joinComma ([formatFixed 0 9, formatFixed 0 9] ++ (if ie then [formatFixed gcp.elevation 3] else []))), warnings := s.warnings ++ [gcp.geoLoc.crs] }) := by
  constructor
  · have he : s.currentPoint = s.currentPoint := rfl
    simp [showPoint, hh, hid, hp, displayVec, convertWGS84, hne, hfail]
  · intro nf ie
    cases nf <;> simp [copyLocation, hh, hp, hne, hfail, convertWGS84]

/-- A widget state whose current point is the conversion-failure point. -/
def failState : ViewState := { sampleState with currentPoint := 6 }

/-- Witness for C2 at the conversion-failure point (id 6): the editors
show zero, the stored elevation 42 is kept, the warning names CRS 26718,
and the copied text is the zero location. -/
theorem conversion_failure_recovered_witness :
    failState.helper = some sampleHelper
    ∧ failState.currentPoint ≠ INVALID_POINT
    ∧ sampleHelper.points failState.currentPoint = some failGCP
    ∧ failGCP.geoLoc.isEmpty = false
    ∧ failGCP.geoLoc.locWGS84 = none
    ∧ (showPoint failState.currentPoint failState).ui.easting = 0
    ∧ (showPoint failState.currentPoint failState).ui.northing = 0
    ∧ (showPoint failState.currentPoint failState).ui.elevation = 42
    ∧ (showPoint failState.currentPoint failState).warnings = [26718]
    ∧ copyLocation true true failState
      = some { failState with clipboard := some "0.000000000,0.000000000,42.000", warnings := [26718] } := by
  have h := conversion_failure_recovered failState
    sampleHelper failGCP rfl (by decide) rfl rfl rfl
  refine ⟨rfl, by decide, rfl, rfl, rfl, ?_, ?_, ?_, ?_, ?_⟩
  · rw [h.1]
    rfl
  · rw [h.1]
    rfl
  · rw [h.1]
    rfl
  · rw [h.1]
    rfl
  · rw [h.2 true true]
    rfl

/-- C5: for a point found in the helper whose stored location is empty,
`showPoint` disables the four copy-location actions while delete,
revert and the three numeric editors are enabled. -/
theorem showPoint_empty_location_controls (s : ViewState) (h : Helper)
    (gcp : GroundControlPoint) (id : Nat)
    (hh : s.helper = some h) (hid : id ≠ INVALID_POINT)
    (hp : h.points id = some gcp)
    (hemp : gcp.geoLoc.isEmpty = true) :
    ((showPoint id s).ui.actionCopyLatLonEnabled = false
     ∧ (showPoint id s).ui.actionCopyLatLonElevEnabled = false
     ∧ (showPoint id s).ui.actionCopyLonLatEnabled = false
     ∧ (showPoint id s).ui.actionCopyLonLatElevEnabled = false)
    ∧ ((showPoint id s).ui.actionDeleteEnabled = true
       ∧ (showPoint id s).ui.actionRevertEnabled = true
       ∧ (showPoint id s).ui.eastingEnabled = true
       ∧ (showPoint id s).ui.northingEnabled = true
       ∧ (showPoint id s).ui.elevationEnabled = true) := by
  rw [showPoint_found_eq s h gcp id hh hid hp]
  simp [enableControls, hemp]

/-- Witness for C5 at the empty-location point (id 5). -/
theorem showPoint_empty_location_controls_witness :
    sampleState.helper = some sampleHelper
    ∧ (5 : Nat) ≠ INVALID_POINT
    ∧ sampleHelper.points 5 = some emptyLocGCP
    ∧ emptyLocGCP.geoLoc.isEmpty = true
    ∧ (showPoint 5 sampleState).ui.actionCopyLatLonEnabled = false
    ∧ (showPoint 5 sampleState).ui.actionDeleteEnabled = true
    ∧ (showPoint 5 sampleState).ui.eastingEnabled = true := by
  have h := showPoint_empty_location_controls sampleState sampleHelper
    emptyLocGCP 5 rfl (by decide) rfl rfl
  exact ⟨rfl, by decide, rfl, rfl, h.1.1, h.2.1, h.2.2.2.1⟩

/-- C9: `enableControls` always sets the copy-location tool button to
`state` alone, independent of `haveLocation`; in particular for a
current point with no location the button is enabled while the four
copy actions inside its menu are disabled; and after any `showPoint`
the button is enabled exactly when a point is current. -/
theorem copyLocationButton_follows_state :
    ∀ (st hl : Bool) (ui : UIState) (id : Nat) (s : ViewState),
      (enableControls st hl ui).copyLocationButtonEnabled = st
      ∧ ((enableControls true false ui).copyLocationButtonEnabled = true
         ∧ (enableControls true false ui).actionCopyLatLonEnabled = false
         ∧ (enableControls true false ui).actionCopyLatLonElevEnabled = false
         ∧ (enableControls true false ui).actionCopyLonLatEnabled = false
         ∧ (enableControls true false ui).actionCopyLonLatElevEnabled = false)
      ∧ (showPoint id s).ui.copyLocationButtonEnabled
          = ((showPoint id s).currentPoint != INVALID_POINT) := by
  intro st hl ui id s
  refine ⟨rfl, ⟨rfl, rfl, rfl, rfl, rfl⟩, ?_⟩
  rcases hs : s.helper with _ | h
  · simp [showPoint, hs, clearPointState, enableControls]
  · by_cases hid : id = INVALID_POINT
    · simp [showPoint, hs, hid, clearPointState, enableControls]
    · rcases hp : h.points id with _ | gcp
      · simp [showPoint, hs, hid, hp, clearPointState, enableControls]
      · simp [showPoint, hs, hid, hp, enableControls, bne_iff_ne]

/-- C10: the `pointChanged` handler does nothing — the whole state, in
particular the editors, the current point id and the enablement flags,
is unchanged — when the notified id differs from the current point, and
refreshes the display via `showPoint` exactly when it matches. -/
theorem onPointChanged_frame :
    ∀ (id : Nat) (s : ViewState),
      (s.currentPoint ≠ id → onPointChanged id s = s)
      ∧ (s.currentPoint = id → onPointChanged id s = showPoint id s) := by
  intro id s
  constructor
  · intro hne
    simp [onPointChanged, hne]
  · intro he
    simp [onPointChanged, he]

/-- Witness for C10: notifying `sampleState` (current point 3) about
point 4 changes nothing; notifying about point 3 refreshes the display. -/
theorem onPointChanged_frame_witness :
    (sampleState.currentPoint ≠ 4 ∧ onPointChanged 4 sampleState = sampleState)
    ∧ (sampleState.currentPoint = 3
       ∧ onPointChanged 3 sampleState = showPoint 3 sampleState) := by
  refine ⟨⟨by decide, ?_⟩, ⟨rfl, ?_⟩⟩
  · exact (onPointChanged_frame 4 sampleState).1 (by decide)
  · exact (onPointChanged_frame 3 sampleState).2 rfl

/-- C4: for a current point found in the helper, the shared
`valueChanged` slot of the three editors commits the edit: the point's
location becomes the (easting, northing) editor pair tagged with the
WGS84 lat/lon frame, its elevation becomes the elevation editor value,
its user-provided flag is set, and the model is notified that this id
changed. -/
theorem setPointPosition_writes_back (s : ViewState) (h : Helper)
    (gcp : GroundControlPoint)
    (hh : s.helper = some h)
    (hid : s.currentPoint ≠ INVALID_POINT)
    (hp : h.points s.currentPoint = some gcp) :
    ∃ h', (onFieldValueEdited s).helper = some h'
      ∧ h'.points s.currentPoint
        = some { gcp with geoLoc := GeoPoint.ofVector2dWGS84 s.ui.easting s.ui.northing, elevation := s.ui.elevation, geoLocUserProvided := true }
      ∧ (GeoPoint.ofVector2dWGS84 s.ui.easting s.ui.northing).crs = lat_lon_WGS84
      ∧ (GeoPoint.ofVector2dWGS84 s.ui.easting s.ui.northing).isEmpty = false
      ∧ (GeoPoint.ofVector2dWGS84 s.ui.easting s.ui.northing).locWGS84
          = some (s.ui.easting, s.ui.northing, 0)
      ∧ (onFieldValueEdited s).modelNotes = s.modelNotes ++ [s.currentPoint] := by
  refine ⟨{ h with points := fun j => if j = s.currentPoint then some { gcp with geoLoc := GeoPoint.ofVector2dWGS84 s.ui.easting s.ui.northing, elevation := s.ui.elevation, geoLocUserProvided := true } else h.points j }, ?_, ?_, rfl, rfl, rfl, ?_⟩
  · simp [onFieldValueEdited, setPointPosition, hh, hid, hp]
  · simp
  · simp [onFieldValueEdited, setPointPosition, hh, hid, hp]

/-- Witness for C4 at `sampleState` after typing easting 10, northing 20
and elevation 30 into the editors. -/
theorem setPointPosition_writes_back_witness :
    ({ sampleState with ui := { sampleUI with easting := 10, northing := 20, elevation := 30 } } : ViewState).helper = some sampleHelper
    ∧ ({ sampleState with ui := { sampleUI with easting := 10, northing := 20, elevation := 30 } } : ViewState).currentPoint ≠ INVALID_POINT
    ∧ sampleHelper.points 3 = some sampleGCP
    ∧ (∃ h', (onFieldValueEdited { sampleState with ui := { sampleUI with easting := 10, northing := 20, elevation := 30 } }).helper = some h'
        ∧ h'.points 3 = some { sampleGCP with geoLoc := GeoPoint.ofVector2dWGS84 10 20, elevation := 30, geoLocUserProvided := true }
        ∧ (onFieldValueEdited { sampleState with ui := { sampleUI with easting := 10, northing := 20, elevation := 30 } }).modelNotes = [3]) := by
  refine ⟨rfl, by decide, rfl, ?_⟩
  obtain ⟨h', h1, h2, _, _, _, h3⟩ := setPointPosition_writes_back
    { sampleState with ui := { sampleUI with easting := 10, northing := 20, elevation := 30 } }
    sampleHelper sampleGCP rfl (by decide) rfl
  exact ⟨h', h1, h2, h3⟩

/-- C8: `copyLocation` dereferences the helper pointer unconditionally,
so with no helper set it is undefined behaviour (modelled as `none`),
while the delete, revert, show and commit-edit handlers each test the
helper first and stay defined; with a helper set, `copyLocation` always
returns a defined state. -/
theorem copyLocation_null_helper (s : ViewState) :
    (s.helper = none →
      (∀ nf ie, copyLocation nf ie s = none)
      ∧ onDeleteTriggered s = s
      ∧ onRevertTriggered s = s
      ∧ (∀ id, setPointPosition id s = s)
      ∧ (∀ id, showPoint id s = clearPointState s))
    ∧ (∀ h, s.helper = some h → ∀ nf ie, ∃ t, copyLocation nf ie s = some t) := by
  constructor
  · intro hn
    refine ⟨fun nf ie => ?_, ?_, ?_, fun id => ?_, fun id => ?_⟩
    · simp [copyLocation, hn]
    · simp [onDeleteTriggered, hn]
    · simp [onRevertTriggered, hn]
    · simp [setPointPosition, hn]
    · simp [showPoint, hn]
  · intro h hh nf ie
    unfold copyLocation
    rw [hh]
    exact ⟨_, rfl⟩

/-- A widget state with no helper set. -/
def noHelperState : ViewState := { sampleState with helper := none }

/-- Witness for C8 at `noHelperState`: a copy attempt is the undefined
dereference while delete, revert, show and commit-edit stay defined;
and with `sampleState`'s helper set the copy is defined. -/
theorem copyLocation_null_helper_witness :
    noHelperState.helper = none
    ∧ copyLocation true false noHelperState = none
    ∧ onDeleteTriggered noHelperState = noHelperState
    ∧ setPointPosition 3 noHelperState = noHelperState
    ∧ sampleState.helper = some sampleHelper
    ∧ (∃ t, copyLocation true false sampleState = some t) := by
  have h := copyLocation_null_helper noHelperState
  have h2 := (copyLocation_null_helper sampleState).2 sampleHelper rfl true false
  exact ⟨rfl, (h.1 rfl).1 true false, (h.1 rfl).2.1, (h.1 rfl).2.2.2.1 3, rfl, h2⟩

/-- Counterexample to C3 as frozen: in the state cleared by `showPoint`
with no helper set, a copy attempt is the undefined null-helper
dereference (`none`), not a crash-free no-op. -/
theorem copy_after_clear_without_helper :
    (showPoint 3 noHelperState).currentPoint = INVALID_POINT
    ∧ (showPoint 3 noHelperState).helper = none
    ∧ copyLocation true false (showPoint 3 noHelperState) = none
    ∧ copyLocation true false (showPoint 3 noHelperState)
      ≠ some (showPoint 3 noHelperState) := by
  have h0 : copyLocation true false (showPoint 3 noHelperState) = none := rfl
  refine ⟨rfl, rfl, h0, ?_⟩
  rw [h0]
  simp

/-- C3 (amended): for the sentinel id, an unset helper, or a point the
helper does not have, `showPoint` sets the current point to the
sentinel and disables every editing control; in that state every
subsequent commit-edit, delete or revert attempt is a no-op, and a copy
attempt is a no-op provided a helper is set and holds no point at the
sentinel id (with no helper, `copyLocation` dereferences the null
helper pointer). -/
theorem showPoint_invalid_clears (s : ViewState) (id : Nat)
    (hcond : id = INVALID_POINT ∨ s.helper = none
      ∨ ∃ h, s.helper = some h ∧ h.points id = none) :
    showPoint id s = clearPointState s
    ∧ (clearPointState s).currentPoint = INVALID_POINT
    ∧ ((clearPointState s).ui.eastingEnabled = false
       ∧ (clearPointState s).ui.northingEnabled = false
       ∧ (clearPointState s).ui.elevationEnabled = false
       ∧ (clearPointState s).ui.actionDeleteEnabled = false
       ∧ (clearPointState s).ui.actionRevertEnabled = false
       ∧ (clearPointState s).ui.actionCopyLatLonEnabled = false
       ∧ (clearPointState s).ui.actionCopyLatLonElevEnabled = false
       ∧ (clearPointState s).ui.actionCopyLonLatEnabled = false
       ∧ (clearPointState s).ui.actionCopyLonLatElevEnabled = false
       ∧ (clearPointState s).ui.copyLocationButtonEnabled = false)
    ∧ onFieldValueEdited (clearPointState s) = clearPointState s
    ∧ onDeleteTriggered (clearPointState s) = clearPointState s
    ∧ onRevertTriggered (clearPointState s) = clearPointState s
    ∧ (∀ h, s.helper = some h → h.points INVALID_POINT = none →
        ∀ nf ie, copyLocation nf ie (clearPointState s) = some (clearPointState s)) := by
  refine ⟨?_, rfl, ⟨rfl, rfl, rfl, rfl, rfl, rfl, rfl, rfl, rfl, rfl⟩, ?_, ?_, ?_, ?_⟩
  · rcases hcond with hid | hn | ⟨h, hh, hp⟩
    · rcases hs : s.helper with _ | h
      · simp [showPoint, hs]
      · simp [showPoint, hs, hid]
    · simp [showPoint, hn]
    · simp [showPoint, hh, hp]
  · rcases hs : s.helper with _ | h <;>
      simp [onFieldValueEdited, setPointPosition, clearPointState, hs]
  · rcases hs : s.helper with _ | h <;>
      simp [onDeleteTriggered, clearPointState, hs]
  · rcases hs : s.helper with _ | h <;>
      simp [onRevertTriggered, clearPointState, hs]
  · intro h hh hnone nf ie
    simp [copyLocation, clearPointState, hh, hnone]

/-- Witness for the amended C3 at `noHelperState`: the helper-unset
case clears and the edit attempt is a no-op; and for `sampleState`'s
helper with the missing id 4, copying in the cleared state is a no-op. -/
theorem showPoint_invalid_clears_witness :
    (noHelperState.helper = none
     ∧ showPoint 3 noHelperState = clearPointState noHelperState
     ∧ onFieldValueEdited (clearPointState noHelperState) = clearPointState noHelperState)
    ∧ (sampleState.helper = some sampleHelper
       ∧ sampleHelper.points 4 = none
       ∧ sampleHelper.points INVALID_POINT = none
       ∧ showPoint 4 sampleState = clearPointState sampleState
       ∧ copyLocation true false (clearPointState sampleState)
         = some (clearPointState sampleState)) := by
  have h1 := showPoint_invalid_clears noHelperState 3 (Or.inr (Or.inl rfl))
  have h2 := showPoint_invalid_clears sampleState 4
    (Or.inr (Or.inr ⟨sampleHelper, rfl, rfl⟩))
  refine ⟨⟨rfl, h1.1, h1.2.2.2.1⟩, rfl, rfl, by decide, h2.1, ?_⟩
  exact h2.2.2.2.2.2.2 sampleHelper rfl (by decide) true false

/-- Guard of the active-point handler: a notification whose id already
matches the current point is skipped, for any feedback fuel. -/
theorem hapc_skip (fuel id : Nat) (t : ViewState) (h : t.currentPoint = id) :
    handleActivePointChanged fuel id t = t := by
  cases fuel with
  | zero => rfl
  | succ n => simp [handleActivePointChanged, h]

/-- C6: an external `activePointChanged` notification whose id matches
the current point performs no update at all; one whose id differs
updates the display and the list selection once, delegates one
`setActivePoint` back to the helper, and the resulting re-entrant
notification is skipped — the cascade is already stable with a single
unit of feedback fuel. -/
theorem activePointChanged_once (s : ViewState) (id : Nat) (h : Helper)
    (gcp : GroundControlPoint)
    (hh : s.helper = some h) (hp : h.points id = some gcp)
    (hid : id ≠ INVALID_POINT) :
    (s.currentPoint = id → ∀ fuel, handleActivePointChanged fuel id s = s)
    ∧ (s.currentPoint ≠ id →
        (∀ k, handleActivePointChanged (k + 1) id s
          = handleActivePointChanged 1 id s)
        ∧ (handleActivePointChanged 1 id s).currentPoint = id
        ∧ (handleActivePointChanged 1 id s).listSelection = some id
        ∧ (handleActivePointChanged 1 id s).ui = (showPoint id s).ui
        ∧ (handleActivePointChanged 1 id s).helperCalls
          = s.helperCalls ++ [HelperCall.setActive id]) := by
  constructor
  · intro he fuel
    exact hapc_skip fuel id s he
  · intro hne
    have e1 := showPoint_found_eq s h gcp id hh hid hp
    have h2 : ({ showPoint id s with listSelection := some id } : ViewState).helper = some h := by
      rw [e1]
      exact hh
    have hsel : selectedPointOf { showPoint id s with listSelection := some id } = id := by
      simp [selectedPointOf]
    have e3 := showPoint_found_eq { showPoint id s with listSelection := some id } h gcp id h2 hid hp
    have h3helper : (showPoint id { showPoint id s with listSelection := some id }).helper = some h := by
      rw [e3]
      exact h2
    have h3cp : (showPoint id { showPoint id s with listSelection := some id }).currentPoint = id := by
      rw [e3]
    have key : ∀ f, handleActivePointChanged (f + 1) id s
        = { showPoint id { showPoint id s with listSelection := some id } with
            helper := some { h with activePoint := id }
            helperCalls := (showPoint id { showPoint id s with listSelection := some id }).helperCalls ++ [HelperCall.setActive id] } := by
      intro f
      simp only [handleActivePointChanged, if_neg hne]
      rw [hsel]
      rw [h3helper]
      exact hapc_skip f id _ h3cp
    have k1 : handleActivePointChanged 1 id s
        = { showPoint id { showPoint id s with listSelection := some id } with
            helper := some { h with activePoint := id }
            helperCalls := (showPoint id { showPoint id s with listSelection := some id }).helperCalls ++ [HelperCall.setActive id] } := key 0
    refine ⟨fun k => (key k).trans k1.symm, ?_, ?_, ?_, ?_⟩
    · rw [k1]
      exact h3cp
    · rw [k1]
      show (showPoint id { showPoint id s with listSelection := some id }).listSelection = some id
      rw [e3]
    · rw [k1]
      show (showPoint id { showPoint id s with listSelection := some id }).ui = (showPoint id s).ui
      rw [e3, e1]
      rfl
    · rw [k1]
      show (showPoint id { showPoint id s with listSelection := some id }).helperCalls ++ [HelperCall.setActive id] = s.helperCalls ++ [HelperCall.setActive id]
      rw [e3, e1]

/-- A widget state whose current point id (7) matches no helper point,
used to exercise the active-point cascade. -/
def otherState : ViewState :=
  { sampleState with currentPoint := 7, listSelection := none }

/-- Witness for C6: notifying `otherState` (current point 7) that point
3 became active stabilizes with one unit of feedback fuel, selects and
shows point 3, and delegates exactly one `setActivePoint`. -/
theorem activePointChanged_once_witness :
    otherState.helper = some sampleHelper
    ∧ sampleHelper.points 3 = some sampleGCP
    ∧ (3 : Nat) ≠ INVALID_POINT
    ∧ otherState.currentPoint ≠ 3
    ∧ handleActivePointChanged 5 3 otherState = handleActivePointChanged 1 3 otherState
    ∧ (handleActivePointChanged 1 3 otherState).currentPoint = 3
    ∧ (handleActivePointChanged 1 3 otherState).listSelection = some 3
    ∧ (handleActivePointChanged 1 3 otherState).ui = (showPoint 3 otherState).ui
    ∧ (handleActivePointChanged 1 3 otherState).helperCalls = [HelperCall.setActive 3] := by
  have h := (activePointChanged_once otherState 3 sampleHelper sampleGCP
    rfl rfl (by decide)).2 (by decide)
  exact ⟨rfl, rfl, by decide, by decide, h.1 4, h.2.1, h.2.2.1, h.2.2.2.1,
    h.2.2.2.2⟩

end GCPView
